import Mathlib

set_option linter.unreachableTactic false
set_option linter.unusedTactic false
set_option linter.unusedVariables false

/-!
Verification of the Monte Carlo precision/recall evaluator of the
hypothesis-testing lessons (function calc_precision_recall of the
notebooks).  The evaluator repeats a one-sample lower-tailed t-test
n_iters times: each trial seeds the random source with 313 + iteration,
flips a biased coin (a uniform draw compared against p_positive) to pick
the ground truth, draws a normal sample of size nsamples with mean
true_mean (positive) or reference_mean (negative) and shared variance
true_variance, computes se = std(x)/sqrt(len(x)), the t-statistic
(mean(x) - reference_mean)/se, the lower-tail p-value t.cdf(tstat, len(x)-1),
and classifies the trial into one of four counters by comparing the p-value
with the significance level (strict less-than for a detection).  After the
loop, precision = tp/(tp+fp) and recall = tp/(tp+fn).

The sample values are embedded as exact rationals.  The floating-point
special values that the pipeline can actually produce (division by a zero
standard error, an undefined CDF) are embedded explicitly by the PFloat
type with IEEE comparison semantics: every comparison against NaN is false.
The two external numeric collaborators (the seeded random source and the
Student t CDF) are abstract parameters of the evaluator, constrained only
where the code constrains them.
-/

namespace StatsLessons

/-- Global constant of the notebooks: the treatment (eclair) mean 2.82. -/
def true_mean : ℚ := 282 / 100

/-- Global constant of the notebooks: the shared variance 0.56. -/
def true_variance : ℚ := 56 / 100

/-- Global constant of the notebooks: the reference (null) mean 2.93. -/
def reference_mean : ℚ := 293 / 100

/-- A Python/NumPy floating-point value as it flows through this pipeline:
a finite value (kept exact as a rational), one of the two infinities
produced by dividing a nonzero number by zero, or NaN (produced by 0/0 and
by the t CDF on an invalid input). -/
inductive PFloat where
  | fin : ℚ → PFloat
  | pinf : PFloat
  | ninf : PFloat
  | nan : PFloat
deriving DecidableEq, Repr

/-- IEEE strict less-than: any comparison involving NaN is false. -/
def PFloat.lt : PFloat → PFloat → Bool
  | PFloat.fin a, PFloat.fin b => decide (a < b)
  | PFloat.fin _, PFloat.pinf => true
  | PFloat.ninf, PFloat.fin _ => true
  | PFloat.ninf, PFloat.pinf => true
  | _, _ => false

/-- IEEE greater-or-equal: any comparison involving NaN is false. -/
def PFloat.ge : PFloat → PFloat → Bool
  | PFloat.fin a, PFloat.fin b => decide (b ≤ a)
  | PFloat.pinf, PFloat.fin _ => true
  | PFloat.pinf, PFloat.pinf => true
  | PFloat.pinf, PFloat.ninf => true
  | PFloat.fin _, PFloat.ninf => true
  | PFloat.ninf, PFloat.ninf => true
  | _, _ => false

/-- numpy.mean of the sample. -/
def mean (x : List ℚ) : ℚ := x.sum / x.length

/-- The square of numpy.std with its default ddof = 0: the population
variance, dividing the sum of squared deviations by n (not n - 1).
The code uses std(x) = sqrt(var_pop x); every statement below works with
the square, which stays rational. -/
def var_pop (x : List ℚ) : ℚ :=
  ((x.map (fun a => (a - mean x) ^ 2)).sum) / x.length

/-- The t-statistic tstat = (mean(x) - ref)/se with se = std(x)/sqrt(len(x)),
represented losslessly by its signed square: the map t to t * abs t is a
strictly monotone bijection of the reals, so carrying
(mean - ref) * abs (mean - ref) * n / var_pop (the signed square of tstat)
keeps the exact value representable as a rational.  The floating-point
special cases of the source are explicit: an empty sample gives NaN
(numpy mean/std of an empty array are NaN), a zero standard error gives
plus/minus infinity when the numerator is nonzero and NaN for 0/0. -/
def tstat_ssq (x : List ℚ) (ref : ℚ) : PFloat :=
  if x.length = 0 then PFloat.nan
  else if var_pop x = 0 then
    (if 0 < mean x - ref then PFloat.pinf
     else if mean x - ref < 0 then PFloat.ninf
     else PFloat.nan)
  else PFloat.fin ((mean x - ref) * |mean x - ref| * x.length / var_pop x)

/-- Model of the external collaborator scipy.stats.t.cdf (the lower-tail
Student t CDF), taking the t-statistic in its signed-square representation.
It keeps exactly the special-case behaviour of the real function that the
claims depend on: NaN and a nonpositive degrees-of-freedom give NaN,
minus infinity gives 0, plus infinity gives 1, and every finite input gives
a finite value, strictly increasing, strictly inside (0, 1), with value 1/2
at 0. -/
def t_cdf (tval : PFloat) (df : ℕ) : PFloat :=
  if df = 0 then PFloat.nan
  else
    match tval with
    | PFloat.nan => PFloat.nan
    | PFloat.pinf => PFloat.fin 1
    | PFloat.ninf => PFloat.fin 0
    | PFloat.fin q => PFloat.fin (1 / 2 + q / (2 * (1 + |q|)))

/-- The keyword arguments of calc_precision_recall. -/
structure Config where
  nsamples : ℕ
  signif_level : ℚ
  p_positive : ℚ
deriving DecidableEq, Repr

/-- The default arguments: nsamples = 100, signif_level = 0.05,
p_positive = 0.5. -/
def defaultConfig : Config := ⟨100, 1 / 20, 1 / 2⟩

/-- The configuration validity predicate stated by the spec (the code
itself never checks it): sample_size at least 2, significance level
strictly inside (0, 1), positive probability inside [0, 1]. -/
def ValidConfig (cfg : Config) : Prop :=
  2 ≤ cfg.nsamples ∧ 0 < cfg.signif_level ∧ cfg.signif_level < 1
    ∧ 0 ≤ cfg.p_positive ∧ cfg.p_positive ≤ 1

/-- The contingency tally: the four counters of the loop. -/
structure Tally where
  true_positives : ℕ
  false_positives : ℕ
  true_negatives : ℕ
  false_negatives : ℕ
deriving DecidableEq, Repr

/-- The zero-initialized tally at the start of a run. -/
def Tally.zero : Tally := ⟨0, 0, 0, 0⟩

/-- Sum of the four counters. -/
def Tally.total (t : Tally) : ℕ :=
  t.true_positives + t.false_positives + t.true_negatives + t.false_negatives

/-- The ground-truth coin flip of a trial: rand() < p_positive, where the
uniform draw of the seeded generator is the abstract oracle
urand applied to the seed 313 + iteration. -/
def trialPositive (urand : ℕ → ℚ) (cfg : Config) (i : ℕ) : Bool :=
  decide (urand (313 + i) < cfg.p_positive)

/-- The sample of a trial: norm.rvs with loc the treatment mean on a
positive trial and the reference mean on a negative one, the same shared
variance in both branches, size nsamples, drawn from the generator seeded
with 313 + iteration.  The abstract oracle rvs takes (loc, variance, size,
seed); the source passes scale = sqrt(variance), an equivalent
parameterization. -/
def trialSample (urand : ℕ → ℚ) (rvs : ℚ → ℚ → ℕ → ℕ → List ℚ)
    (cfg : Config) (i : ℕ) : List ℚ :=
  if trialPositive urand cfg i then
    rvs true_mean true_variance cfg.nsamples (313 + i)
  else
    rvs reference_mean true_variance cfg.nsamples (313 + i)

/-- The p-value of a trial: t.cdf(tstat, df = len(x) - 1). -/
def trialPValue (urand : ℕ → ℚ) (rvs : ℚ → ℚ → ℕ → ℕ → List ℚ)
    (cfg : Config) (i : ℕ) : PFloat :=
  t_cdf (tstat_ssq (trialSample urand rvs cfg i) reference_mean)
    ((trialSample urand rvs cfg i).length - 1)

/-- The four sequential if-statements of the loop body that classify a
trial into the tally, exactly as written in the source. -/
def tallyStep (pos : Bool) (pv : PFloat) (s : ℚ) (t : Tally) : Tally :=
  let t1 := if pos && PFloat.lt pv (PFloat.fin s) then
    { t with true_positives := t.true_positives + 1 } else t
  let t2 := if pos && PFloat.ge pv (PFloat.fin s) then
    { t1 with false_negatives := t1.false_negatives + 1 } else t1
  let t3 := if !pos && PFloat.lt pv (PFloat.fin s) then
    { t2 with false_positives := t2.false_positives + 1 } else t2
  if !pos && PFloat.ge pv (PFloat.fin s) then
    { t3 with true_negatives := t3.true_negatives + 1 } else t3

/-- One iteration of the loop. -/
def runTrial (urand : ℕ → ℚ) (rvs : ℚ → ℚ → ℕ → ℕ → List ℚ)
    (cfg : Config) (i : ℕ) (t : Tally) : Tally :=
  tallyStep (trialPositive urand cfg i) (trialPValue urand rvs cfg i)
    cfg.signif_level t

/-- The trial count hard-coded in the source: n_iters = 10000. -/
def n_iters : ℕ := 10000

/-- The loop: for iteration in range(n), starting from the zero tally. -/
def runLoop (urand : ℕ → ℚ) (rvs : ℚ → ℚ → ℕ → ℕ → List ℚ)
    (cfg : Config) (n : ℕ) : Tally :=
  (List.range n).foldl (fun t i => runTrial urand rvs cfg i t) Tally.zero

/-- The only exception the evaluator can raise: Python integer division
by zero in the final metric expressions. -/
inductive PyError where
  | zeroDivisionError
deriving DecidableEq, Repr

/-- The observable outcome of a completed run: the tally and the two
derived metrics the source computes and prints. -/
structure RunResult where
  tally : Tally
  precision : ℚ
  recallValue : ℚ
deriving DecidableEq, Repr

/-- calc_precision_recall: run the 10000-trial loop, then compute
precision = tp/(tp + fp) and recall = tp/(tp + fn).  The source performs
the two divisions unguarded; a zero denominator raises ZeroDivisionError,
embedded here as the error outcome (the precision denominator is evaluated
first, exactly as in the source). -/
def calc_precision_recall (urand : ℕ → ℚ) (rvs : ℚ → ℚ → ℕ → ℕ → List ℚ)
    (cfg : Config) : Except PyError RunResult :=
  let t := runLoop urand rvs cfg n_iters
  if t.true_positives + t.false_positives = 0 then
    Except.error PyError.zeroDivisionError
  else if t.true_positives + t.false_negatives = 0 then
    Except.error PyError.zeroDivisionError
  else
    Except.ok ⟨t,
      (t.true_positives : ℚ) / ((t.true_positives + t.false_positives : ℕ) : ℚ),
      (t.true_positives : ℚ) / ((t.true_positives + t.false_negatives : ℕ) : ℚ)⟩

/-- Modelled from the spec: the sample variance with the unbiased n - 1
divisor that section 4.1 step 2 prescribes (the square of the standard
deviation the spec asks for).  Declared only to be compared against
var_pop, the variance the source actually computes. -/
def spec_var_unbiased (x : List ℚ) : ℚ :=
  ((x.map (fun a => (a - mean x) ^ 2)).sum) / ((x.length - 1 : ℕ) : ℚ)

/-! ### Helper lemmas on the tally step -/

/-- The four sequential ifs of the loop body collapse to a single three-way
case split, because a strict less-than and a greater-or-equal against the
same threshold are mutually exclusive (and both false on NaN). -/
theorem tallyStep_eq (pos : Bool) (pv : PFloat) (s : ℚ) (t : Tally) :
    tallyStep pos pv s t =
      if PFloat.lt pv (PFloat.fin s) then
        (if pos then { t with true_positives := t.true_positives + 1 }
         else { t with false_positives := t.false_positives + 1 })
      else if PFloat.ge pv (PFloat.fin s) then
        (if pos then { t with false_negatives := t.false_negatives + 1 }
         else { t with true_negatives := t.true_negatives + 1 })
      else t := by
  cases pv with
  | fin q =>
      by_cases hq : q < s
      · cases pos <;>
          simp [tallyStep, PFloat.lt, PFloat.ge, hq, not_le_of_lt hq]
      · cases pos <;>
          simp [tallyStep, PFloat.lt, PFloat.ge, hq, le_of_not_lt hq]
  | pinf => cases pos <;> simp [tallyStep, PFloat.lt, PFloat.ge]
  | ninf => cases pos <;> simp [tallyStep, PFloat.lt, PFloat.ge]
  | nan => cases pos <;> simp [tallyStep, PFloat.lt, PFloat.ge]

/-- A NaN p-value takes none of the four branches: the tally is unchanged. -/
theorem tallyStep_nan (pos : Bool) (s : ℚ) (t : Tally) :
    tallyStep pos PFloat.nan s t = t := by
  simp [tallyStep_eq, PFloat.lt, PFloat.ge]

/-- A non-NaN p-value increments the total by exactly one; a NaN p-value
leaves it unchanged. -/
theorem tallyStep_total (pos : Bool) (pv : PFloat) (s : ℚ) (t : Tally) :
    (tallyStep pos pv s t).total
      = t.total + (if pv = PFloat.nan then 0 else 1) := by
  rw [tallyStep_eq]
  cases pv with
  | fin q =>
      by_cases hq : q < s <;> cases pos <;>
        simp [PFloat.lt, PFloat.ge, hq, le_of_not_lt, Tally.total] <;> omega
  | pinf => cases pos <;> simp [PFloat.lt, PFloat.ge, Tally.total] <;> omega
  | ninf => cases pos <;> simp [PFloat.lt, PFloat.ge, Tally.total] <;> omega
  | nan => cases pos <;> simp [PFloat.lt, PFloat.ge, Tally.total]

/-- Each counter is monotone across one step. -/
theorem tallyStep_mono (pos : Bool) (pv : PFloat) (s : ℚ) (t : Tally) :
    t.true_positives ≤ (tallyStep pos pv s t).true_positives
    ∧ t.false_positives ≤ (tallyStep pos pv s t).false_positives
    ∧ t.true_negatives ≤ (tallyStep pos pv s t).true_negatives
    ∧ t.false_negatives ≤ (tallyStep pos pv s t).false_negatives := by
  rw [tallyStep_eq]
  cases pv with
  | fin q =>
      by_cases hq : q < s <;> cases pos <;>
        simp [PFloat.lt, PFloat.ge, hq, le_of_not_lt]
  | pinf => cases pos <;> simp [PFloat.lt, PFloat.ge]
  | ninf => cases pos <;> simp [PFloat.lt, PFloat.ge]
  | nan => cases pos <;> simp [PFloat.lt, PFloat.ge]

/-! ### Helper lemmas on the loop -/

theorem runLoop_succ (urand : ℕ → ℚ) (rvs : ℚ → ℚ → ℕ → ℕ → List ℚ)
    (cfg : Config) (n : ℕ) :
    runLoop urand rvs cfg (n + 1)
      = runTrial urand rvs cfg n (runLoop urand rvs cfg n) := by
  rw [runLoop, List.range_succ, List.foldl_append]
  rfl

/-- The total of the tally after n trials counts exactly the trials whose
p-value is not NaN. -/
theorem runLoop_total (urand : ℕ → ℚ) (rvs : ℚ → ℚ → ℕ → ℕ → List ℚ)
    (cfg : Config) (n : ℕ) :
    (runLoop urand rvs cfg n).total
      = (List.range n).countP
          (fun j => !(trialPValue urand rvs cfg j == PFloat.nan)) := by
  induction n with
  | zero => rfl
  | succ n ih =>
      rw [runLoop_succ, List.range_succ, List.countP_append, runTrial,
        tallyStep_total, ih]
      by_cases h : trialPValue urand rvs cfg n = PFloat.nan <;>
        simp [h, List.countP_cons]

/-- Sample facts: the mean of a constant sample is the constant. -/
theorem mean_replicate (n : ℕ) (c : ℚ) (h : n ≠ 0) :
    mean (List.replicate n c) = c := by
  have hn : (n : ℚ) ≠ 0 := Nat.cast_ne_zero.mpr h
  rw [mean, List.sum_replicate, List.length_replicate, nsmul_eq_mul,
    mul_comm, mul_div_assoc, div_self hn, mul_one]

/-- Sample facts: a constant sample has zero (population) variance, the
degenerate zero-standard-error case. -/
theorem var_pop_replicate (n : ℕ) (c : ℚ) (h : n ≠ 0) :
    var_pop (List.replicate n c) = 0 := by
  rw [var_pop, mean_replicate n c h, List.map_replicate]
  simp

/-- The t-statistic of a constant sample: the division by the zero
standard error silently produces plus infinity, minus infinity, or NaN,
by the sign of mean - ref. -/
theorem tstat_ssq_replicate (n : ℕ) (c ref : ℚ) (h : n ≠ 0) :
    tstat_ssq (List.replicate n c) ref =
      (if 0 < c - ref then PFloat.pinf
       else if c - ref < 0 then PFloat.ninf
       else PFloat.nan) := by
  rw [tstat_ssq, mean_replicate n c h, var_pop_replicate n c h]
  simp [h]

/-! ### Concrete instantiations of the external random collaborators,
used to exhibit concrete runs of the evaluator. -/

/-- A uniform oracle that always draws 0. -/
def uZero : ℕ → ℚ := fun _ => 0

/-- A uniform oracle that always draws 1/2. -/
def uHalf : ℕ → ℚ := fun _ => 1 / 2

/-- A uniform oracle that differs from uZero only on seeds below 313,
seeds the evaluator never uses. -/
def uSeedMasked : ℕ → ℚ := fun sd => if sd < 313 then 7 else 0

/-- A sample oracle returning the constant sample at the reference mean. -/
def rConstRef : ℚ → ℚ → ℕ → ℕ → List ℚ :=
  fun _ _ k _ => List.replicate k reference_mean

/-- A sample oracle returning the constant all-zero sample. -/
def rConstZero : ℚ → ℚ → ℕ → ℕ → List ℚ :=
  fun _ _ k _ => List.replicate k 0

/-- A sample oracle giving the constant reference-mean sample on the first
seed, the all-zero sample on the second, and the all-ten sample after. -/
def rMix : ℚ → ℚ → ℕ → ℕ → List ℚ := fun _ _ k sd =>
  if sd = 313 then List.replicate k reference_mean
  else if sd = 314 then List.replicate k 0
  else List.replicate k 10

/-- A configuration with positive probability 0: every trial is
ground-truth negative. -/
def cfgNoPos : Config := ⟨100, 1 / 20, 0⟩

/-- A configuration whose significance level 2 is outside (0, 1). -/
def cfgBigAlpha : Config := ⟨100, 2, 1 / 2⟩

/-- A configuration with positive probability 1: every trial is
ground-truth positive. -/
def cfgAllPos : Config := ⟨100, 1 / 20, 1⟩

/-- The t CDF maps NaN to NaN for every degrees-of-freedom value. -/
theorem t_cdf_nan (df : ℕ) : t_cdf PFloat.nan df = PFloat.nan := by
  rw [t_cdf]
  split <;> rfl

/-- A constant sample exactly at the tested reference mean drives the
t-statistic to 0/0, hence NaN. -/
theorem tstat_ssq_replicate_self (k : ℕ) (ref : ℚ) :
    tstat_ssq (List.replicate k ref) ref = PFloat.nan := by
  rcases Nat.eq_zero_or_pos k with hk | hk
  · simp [tstat_ssq, hk]
  · rw [tstat_ssq_replicate k ref ref (Nat.pos_iff_ne_zero.mp hk)]
    simp

/-- With the reference-mean constant oracle, every trial has a NaN p-value
and leaves the tally untouched, whatever the uniform oracle and the
configuration are. -/
theorem runTrial_constRef (u : ℕ → ℚ) (cfg : Config) (i : ℕ) (t : Tally) :
    runTrial u rConstRef cfg i t = t := by
  have hs : trialSample u rConstRef cfg i
      = List.replicate cfg.nsamples reference_mean := by
    rw [trialSample]
    split <;> rfl
  rw [runTrial, trialPValue, hs, tstat_ssq_replicate_self, t_cdf_nan,
    tallyStep_nan]

/-- Consequently the whole loop returns the zero tally. -/
theorem runLoop_constRef (u : ℕ → ℚ) (cfg : Config) (n : ℕ) :
    runLoop u rConstRef cfg n = Tally.zero := by
  induction n with
  | zero => rfl
  | succ n ih => rw [runLoop_succ, ih, runTrial_constRef]

/-- With the all-zero constant oracle and a zero uniform draw, every trial
of a configuration with positive p_positive, nsamples at least 2 and a
positive significance level is a degenerate sample whose t-statistic is
silently coerced to minus infinity, whose p-value is 0, and which is
tallied as a true positive. -/
theorem runTrial_constZero (cfg : Config) (hp : 0 < cfg.p_positive)
    (h2 : 2 ≤ cfg.nsamples) (hs : 0 < cfg.signif_level) (i : ℕ) (t : Tally) :
    runTrial uZero rConstZero cfg i t
      = { t with true_positives := t.true_positives + 1 } := by
  have hpos : trialPositive uZero cfg i = true := by
    simp only [trialPositive, uZero, decide_eq_true_eq]
    exact hp
  have hsamp : trialSample uZero rConstZero cfg i
      = List.replicate cfg.nsamples 0 := by
    rw [trialSample, hpos]
    rfl
  have hts : tstat_ssq (List.replicate cfg.nsamples (0 : ℚ)) reference_mean
      = PFloat.ninf := by
    rw [tstat_ssq_replicate _ _ _ (by omega)]
    norm_num [reference_mean]
  have hdf : ¬((List.replicate cfg.nsamples (0 : ℚ)).length - 1 = 0) := by
    rw [List.length_replicate]
    omega
  rw [runTrial, trialPValue, hsamp, hts, t_cdf, if_neg hdf]
  rw [tallyStep_eq]
  simp only [PFloat.lt, decide_eq_true_eq]
  rw [if_pos hs, if_pos hpos]

/-- Consequently the loop tallies every trial as a true positive. -/
theorem runLoop_constZero (cfg : Config) (hp : 0 < cfg.p_positive)
    (h2 : 2 ≤ cfg.nsamples) (hs : 0 < cfg.signif_level) (n : ℕ) :
    runLoop uZero rConstZero cfg n = ⟨n, 0, 0, 0⟩ := by
  induction n with
  | zero => rfl
  | succ n ih => rw [runLoop_succ, ih, runTrial_constZero cfg hp h2 hs]

/-- Under the all-positive configuration the coin flip 1/2 < 1 always says
positive. -/
theorem trialPositive_uHalf_allPos (i : ℕ) :
    trialPositive uHalf cfgAllPos i = true := by
  simp only [trialPositive, uHalf, cfgAllPos, decide_eq_true_eq]
  norm_num

/-- Trial 0 of the mixed oracle (seed 313) draws the reference-mean
constant sample: its p-value is NaN and the tally is unchanged. -/
theorem runTrial_rMix_zero (t : Tally) :
    runTrial uHalf rMix cfgAllPos 0 t = t := by
  have hsamp : trialSample uHalf rMix cfgAllPos 0
      = List.replicate 100 reference_mean := by
    rw [trialSample, trialPositive_uHalf_allPos]
    rfl
  rw [runTrial, trialPValue, hsamp, tstat_ssq_replicate_self, t_cdf_nan,
    tallyStep_nan]

/-- Trial 1 of the mixed oracle (seed 314) draws the all-zero sample: its
degenerate t-statistic is minus infinity, its p-value 0, and it is tallied
as a true positive. -/
theorem runTrial_rMix_one (t : Tally) :
    runTrial uHalf rMix cfgAllPos 1 t
      = { t with true_positives := t.true_positives + 1 } := by
  have hsamp : trialSample uHalf rMix cfgAllPos 1
      = List.replicate 100 0 := by
    rw [trialSample, trialPositive_uHalf_allPos]
    rfl
  have hts : tstat_ssq (List.replicate 100 (0 : ℚ)) reference_mean
      = PFloat.ninf := by
    rw [tstat_ssq_replicate _ _ _ (by norm_num)]
    norm_num [reference_mean]
  have hdf : ¬((List.replicate 100 (0 : ℚ)).length - 1 = 0) := by
    rw [List.length_replicate]
    omega
  rw [runTrial, trialPValue, hsamp, hts, t_cdf, if_neg hdf, tallyStep_eq,
    trialPositive_uHalf_allPos]
  have hlt : PFloat.lt (PFloat.fin 0) (PFloat.fin cfgAllPos.signif_level)
      = true := by
    simp only [PFloat.lt, decide_eq_true_eq, cfgAllPos]
    norm_num
  rw [hlt, if_pos rfl, if_pos rfl]

/-- Every trial of index at least 2 of the mixed oracle draws the all-ten
sample: its degenerate t-statistic is plus infinity, its p-value 1, and it
is tallied as a false negative. -/
theorem runTrial_rMix_big (i : ℕ) (h : 2 ≤ i) (t : Tally) :
    runTrial uHalf rMix cfgAllPos i t
      = { t with false_negatives := t.false_negatives + 1 } := by
  have hsamp : trialSample uHalf rMix cfgAllPos i
      = List.replicate 100 10 := by
    rw [trialSample, trialPositive_uHalf_allPos, if_pos rfl]
    show rMix true_mean true_variance cfgAllPos.nsamples (313 + i)
      = List.replicate 100 10
    rw [rMix]
    simp only [cfgAllPos]
    rw [if_neg (by omega), if_neg (by omega)]
  have hts : tstat_ssq (List.replicate 100 (10 : ℚ)) reference_mean
      = PFloat.pinf := by
    rw [tstat_ssq_replicate _ _ _ (by norm_num)]
    norm_num [reference_mean]
  have hdf : ¬((List.replicate 100 (10 : ℚ)).length - 1 = 0) := by
    rw [List.length_replicate]
    omega
  rw [runTrial, trialPValue, hsamp, hts, t_cdf, if_neg hdf, tallyStep_eq]
  have hlt : PFloat.lt (PFloat.fin 1) (PFloat.fin cfgAllPos.signif_level)
      = false := by
    simp only [PFloat.lt, decide_eq_false_iff_not, cfgAllPos]
    norm_num
  have hge : PFloat.ge (PFloat.fin 1) (PFloat.fin cfgAllPos.signif_level)
      = true := by
    simp only [PFloat.ge, decide_eq_true_eq, cfgAllPos]
    norm_num
  rw [hlt, hge, trialPositive_uHalf_allPos]
  simp

/-- The mixed run after n trials (n at least 2): one true positive, n - 2
false negatives, and nothing from the NaN trial. -/
theorem runLoop_rMix (n : ℕ) (h : 2 ≤ n) :
    runLoop uHalf rMix cfgAllPos n = ⟨1, 0, 0, n - 2⟩ := by
  induction n, h using Nat.le_induction with
  | base =>
      show runLoop uHalf rMix cfgAllPos (1 + 1) = _
      rw [runLoop_succ, runLoop_succ, runLoop, List.range_zero,
        List.foldl_nil, runTrial_rMix_zero, runTrial_rMix_one]
      rfl
  | succ n hn ih =>
      rw [runLoop_succ, ih, runTrial_rMix_big n hn]
      show (⟨1, 0, 0, n - 2 + 1⟩ : Tally) = ⟨1, 0, 0, n + 1 - 2⟩
      congr 1
      omega

/-- The run is a pure function of the per-seed draws at seeds
313 + iteration: two oracle pairs that agree on the seed window used by
the loop produce the same tally. -/
theorem runLoop_congr (u1 u2 : ℕ → ℚ) (r1 r2 : ℚ → ℚ → ℕ → ℕ → List ℚ)
    (cfg : Config) (n : ℕ)
    (hu : ∀ sd, 313 ≤ sd → sd < 313 + n → u1 sd = u2 sd)
    (hr : ∀ loc v k sd, 313 ≤ sd → sd < 313 + n → r1 loc v k sd = r2 loc v k sd) :
    runLoop u1 r1 cfg n = runLoop u2 r2 cfg n := by
  induction n with
  | zero => rfl
  | succ n ih =>
      have hu' : ∀ sd, 313 ≤ sd → sd < 313 + n → u1 sd = u2 sd :=
        fun sd ha hb => hu sd ha (by omega)
      have hr' : ∀ loc v k sd, 313 ≤ sd → sd < 313 + n →
          r1 loc v k sd = r2 loc v k sd :=
        fun loc v k sd ha hb => hr loc v k sd ha (by omega)
      have hposeq : trialPositive u1 cfg n = trialPositive u2 cfg n := by
        rw [trialPositive, trialPositive, hu (313 + n) (by omega) (by omega)]
      have hsampeq : trialSample u1 r1 cfg n = trialSample u2 r2 cfg n := by
        rw [trialSample, trialSample, hposeq,
          hr true_mean true_variance cfg.nsamples (313 + n) (by omega) (by omega),
          hr reference_mean true_variance cfg.nsamples (313 + n) (by omega) (by omega)]
      rw [runLoop_succ, runLoop_succ, ih hu' hr', runTrial, runTrial,
        trialPValue, trialPValue, hposeq, hsampeq]

/-- A detection at a threshold stays a detection at any larger
threshold (IEEE comparison, so NaN detects at neither). -/
theorem lt_mono_threshold (pv : PFloat) (s1 s2 : ℚ) (h : s1 ≤ s2)
    (hlt : PFloat.lt pv (PFloat.fin s1) = true) :
    PFloat.lt pv (PFloat.fin s2) = true := by
  cases pv with
  | fin a =>
      simp only [PFloat.lt, decide_eq_true_eq] at hlt ⊢
      exact lt_of_lt_of_le hlt h
  | pinf => simp [PFloat.lt] at hlt
  | ninf => rfl
  | nan => simp [PFloat.lt] at hlt

/-- One classification step preserves the monotonicity invariant between
a run at threshold s1 and a run at threshold s2 with s1 at most s2: the
true-positive count and the detection count are at most those of the
larger threshold, and the positive-truth count tp + fn is identical. -/
theorem tallyStep_pair (pos : Bool) (pv : PFloat) (s1 s2 : ℚ) (h : s1 ≤ s2)
    (t1 t2 : Tally)
    (h1 : t1.true_positives ≤ t2.true_positives)
    (h2 : t1.true_positives + t1.false_positives
        ≤ t2.true_positives + t2.false_positives)
    (h3 : t1.true_positives + t1.false_negatives
        = t2.true_positives + t2.false_negatives) :
    (tallyStep pos pv s1 t1).true_positives
        ≤ (tallyStep pos pv s2 t2).true_positives
    ∧ (tallyStep pos pv s1 t1).true_positives
          + (tallyStep pos pv s1 t1).false_positives
        ≤ (tallyStep pos pv s2 t2).true_positives
          + (tallyStep pos pv s2 t2).false_positives
    ∧ (tallyStep pos pv s1 t1).true_positives
          + (tallyStep pos pv s1 t1).false_negatives
        = (tallyStep pos pv s2 t2).true_positives
          + (tallyStep pos pv s2 t2).false_negatives := by
  rw [tallyStep_eq, tallyStep_eq]
  cases pv with
  | fin q =>
      by_cases hq1 : q < s1
      · have hq2 : q < s2 := lt_of_lt_of_le hq1 h
        cases pos <;> simp [PFloat.lt, PFloat.ge, hq1, hq2] <;> omega
      · by_cases hq2 : q < s2
        · cases pos <;>
            simp [PFloat.lt, PFloat.ge, hq1, hq2, le_of_not_lt hq1] <;> omega
        · cases pos <;>
            simp [PFloat.lt, PFloat.ge, hq1, hq2, le_of_not_lt hq1,
              le_of_not_lt hq2] <;> omega
  | pinf => cases pos <;> simp [PFloat.lt, PFloat.ge] <;> omega
  | ninf => cases pos <;> simp [PFloat.lt, PFloat.ge] <;> omega
  | nan => cases pos <;> simp [PFloat.lt, PFloat.ge] <;> omega

/-- The monotonicity invariant holds between two whole runs that differ
only in the significance level. -/
theorem runLoop_pair (u : ℕ → ℚ) (r : ℚ → ℚ → ℕ → ℕ → List ℚ) (ns : ℕ)
    (p s1 s2 : ℚ) (h : s1 ≤ s2) (n : ℕ) :
    (runLoop u r ⟨ns, s1, p⟩ n).true_positives
        ≤ (runLoop u r ⟨ns, s2, p⟩ n).true_positives
    ∧ (runLoop u r ⟨ns, s1, p⟩ n).true_positives
          + (runLoop u r ⟨ns, s1, p⟩ n).false_positives
        ≤ (runLoop u r ⟨ns, s2, p⟩ n).true_positives
          + (runLoop u r ⟨ns, s2, p⟩ n).false_positives
    ∧ (runLoop u r ⟨ns, s1, p⟩ n).true_positives
          + (runLoop u r ⟨ns, s1, p⟩ n).false_negatives
        = (runLoop u r ⟨ns, s2, p⟩ n).true_positives
          + (runLoop u r ⟨ns, s2, p⟩ n).false_negatives := by
  induction n with
  | zero => exact ⟨le_refl _, le_refl _, rfl⟩
  | succ n ih =>
      rw [runLoop_succ, runLoop_succ, runTrial, runTrial]
      exact tallyStep_pair _ _ _ _ h _ _ ih.1 ih.2.1 ih.2.2

/-! ### The claims -/

/-- C1 (counterexample): the claimed invariant tp+fp+tn+fn = trial_count
fails on a run over a valid configuration.  With the default (valid)
configuration and a normal oracle whose draws happen to be constant at the
reference mean, every trial has standard error 0 and sample mean equal to
the reference mean, so its t-statistic is 0/0 = NaN, its p-value is NaN,
and neither the strict-less-than branch nor the greater-or-equal branch
fires: no counter is ever incremented and the final total is 0, not
10000. -/
theorem C1_counterexample :
    ValidConfig defaultConfig
    ∧ (runLoop uZero rConstRef defaultConfig n_iters).total = 0
    ∧ (runLoop uZero rConstRef defaultConfig n_iters).total ≠ n_iters := by
  refine ⟨?_, ?_, ?_⟩
  · exact ⟨by norm_num [defaultConfig], by norm_num [defaultConfig],
      by norm_num [defaultConfig], by norm_num [defaultConfig],
      by norm_num [defaultConfig]⟩
  · rw [runLoop_constRef]
    rfl
  · rw [runLoop_constRef]
    simp [Tally.zero, Tally.total, n_iters]

/-- C1 (amended): each trial whose p-value is not NaN increments exactly
one of the four counters, a trial with a NaN p-value increments none, the
counters never decrease, and at termination tp+fp+tn+fn equals the number
of trials with a non-NaN p-value, which is at most (but not always equal
to) the trial count. -/
theorem C1_amended (u : ℕ → ℚ) (r : ℚ → ℚ → ℕ → ℕ → List ℚ)
    (cfg : Config) (n i : ℕ) (t : Tally) :
    (runLoop u r cfg n).total
        = (List.range n).countP (fun j => !(trialPValue u r cfg j == PFloat.nan))
    ∧ (runLoop u r cfg n).total ≤ n
    ∧ t.true_positives ≤ (runTrial u r cfg i t).true_positives
    ∧ t.false_positives ≤ (runTrial u r cfg i t).false_positives
    ∧ t.true_negatives ≤ (runTrial u r cfg i t).true_negatives
    ∧ t.false_negatives ≤ (runTrial u r cfg i t).false_negatives
    ∧ (trialPValue u r cfg i ≠ PFloat.nan →
        (runTrial u r cfg i t).total = t.total + 1)
    ∧ (trialPValue u r cfg i = PFloat.nan → runTrial u r cfg i t = t) := by
  refine ⟨runLoop_total u r cfg n, ?_, (tallyStep_mono _ _ _ _).1,
    (tallyStep_mono _ _ _ _).2.1, (tallyStep_mono _ _ _ _).2.2.1,
    (tallyStep_mono _ _ _ _).2.2.2, ?_, ?_⟩
  · rw [runLoop_total]
    calc (List.range n).countP (fun j => !(trialPValue u r cfg j == PFloat.nan))
        ≤ (List.range n).length := List.countP_le_length _
      _ = n := List.length_range n
  · intro h
    rw [runTrial, tallyStep_total, if_neg h]
  · intro h
    rw [runTrial, h, tallyStep_nan]

/-- The mean of the two-point sample [0, 2]. -/
theorem mean_sample_02 : mean [(0 : ℚ), 2] = 1 := by
  rw [mean]
  norm_num

/-- The population (divisor n) variance of [0, 2] that the code computes. -/
theorem var_pop_02 : var_pop [(0 : ℚ), 2] = 1 := by
  rw [var_pop, mean_sample_02]
  norm_num

/-- The unbiased (divisor n - 1) variance of [0, 2] the spec asks for. -/
theorem spec_var_02 : spec_var_unbiased [(0 : ℚ), 2] = 2 := by
  rw [spec_var_unbiased, mean_sample_02]
  norm_num

/-- C2 (counterexample): the standard deviation the code computes is not
the unbiased n - 1 one.  On the sample [0, 2] the code (numpy std with its
default ddof = 0) divides by n and gets variance 1, while the unbiased
n - 1 variance the claim asks for is 2. -/
theorem C2_counterexample :
    var_pop [(0 : ℚ), 2] = 1 ∧ spec_var_unbiased [(0 : ℚ), 2] = 2
    ∧ var_pop [(0 : ℚ), 2] ≠ spec_var_unbiased [(0 : ℚ), 2] := by
  refine ⟨var_pop_02, spec_var_02, ?_⟩
  rw [var_pop_02, spec_var_02]
  norm_num

/-- C2 (amended): the sample standard deviation is computed with the
population divisor n (the numpy default), not n - 1; the standard error is
that standard deviation divided by sqrt(sample_size), and the t-statistic
is (sample_mean - reference_mean) divided by the standard error.  Stated
on the signed squares, which are exact rationals: the squared standard
error is var_pop/n, and the signed square of the t-statistic is the signed
square of (mean - ref) divided by it. -/
theorem C2_amended (x : List ℚ) (ref : ℚ) (hx : x.length ≠ 0)
    (hv : var_pop x ≠ 0) :
    var_pop x = (x.map (fun a => (a - mean x) ^ 2)).sum / (x.length : ℚ)
    ∧ tstat_ssq x ref
        = PFloat.fin ((mean x - ref) * |mean x - ref|
            / (var_pop x / (x.length : ℚ))) := by
  constructor
  · rfl
  · rw [tstat_ssq, if_neg hx, if_neg hv]
    have hn : (x.length : ℚ) ≠ 0 := Nat.cast_ne_zero.mpr hx
    congr 1
    field_simp

/-- C2 (witness): the amended statement evaluated on the concrete sample
[0, 2] against reference 0. -/
theorem C2_witness :
    ([(0 : ℚ), 2].length ≠ 0 ∧ var_pop [(0 : ℚ), 2] ≠ 0)
    ∧ (var_pop [(0 : ℚ), 2]
        = ([(0 : ℚ), 2].map (fun a => (a - mean [(0 : ℚ), 2]) ^ 2)).sum
            / (([(0 : ℚ), 2].length : ℕ) : ℚ)
      ∧ tstat_ssq [(0 : ℚ), 2] 0
        = PFloat.fin ((mean [(0 : ℚ), 2] - 0) * |mean [(0 : ℚ), 2] - 0|
            / (var_pop [(0 : ℚ), 2] / (([(0 : ℚ), 2].length : ℕ) : ℚ)))) :=
  ⟨⟨by decide, by rw [var_pop_02]; exact one_ne_zero⟩,
    C2_amended [(0 : ℚ), 2] 0 (by decide) (by rw [var_pop_02]; exact one_ne_zero)⟩

/-- C3 (confirmed): a trial is decided "detected positive" (tp or fp
incremented) if and only if pvalue < signif_level holds under IEEE
comparison, a strict less-than; when the p-value equals the significance
level exactly, the trial is decided fail-to-reject (fn or tn incremented,
tp and fp unchanged). -/
theorem C3_decision_strict_iff (u : ℕ → ℚ) (r : ℚ → ℚ → ℕ → ℕ → List ℚ)
    (cfg : Config) (i : ℕ) (t : Tally) :
    ((runTrial u r cfg i t).true_positives + (runTrial u r cfg i t).false_positives
        = t.true_positives + t.false_positives + 1
      ↔ PFloat.lt (trialPValue u r cfg i) (PFloat.fin cfg.signif_level) = true)
    ∧ (trialPValue u r cfg i = PFloat.fin cfg.signif_level →
        (runTrial u r cfg i t).true_positives + (runTrial u r cfg i t).false_positives
          = t.true_positives + t.false_positives
        ∧ (runTrial u r cfg i t).false_negatives + (runTrial u r cfg i t).true_negatives
          = t.false_negatives + t.true_negatives + 1) := by
  rw [runTrial, tallyStep_eq]
  generalize trialPValue u r cfg i = pv
  generalize trialPositive u cfg i = pos
  constructor
  · cases hlt : PFloat.lt pv (PFloat.fin cfg.signif_level)
    · cases hge : PFloat.ge pv (PFloat.fin cfg.signif_level) <;>
        cases pos <;> simp [hlt, hge] <;> omega
    · cases pos <;> simp [hlt] <;> omega
  · intro h
    rw [h]
    have hlt : PFloat.lt (PFloat.fin cfg.signif_level)
        (PFloat.fin cfg.signif_level) = false := by
      simp [PFloat.lt]
    have hge : PFloat.ge (PFloat.fin cfg.signif_level)
        (PFloat.fin cfg.signif_level) = true := by
      simp [PFloat.ge]
    cases pos <;> simp [hlt, hge] <;> omega

/-- A ground-truth-negative trial never touches the tp and fn counters. -/
theorem tallyStep_neg_keeps (pv : PFloat) (s : ℚ) (t : Tally) :
    (tallyStep false pv s t).true_positives = t.true_positives
    ∧ (tallyStep false pv s t).false_negatives = t.false_negatives := by
  rw [tallyStep_eq]
  split_ifs <;> simp_all

/-- When p_positive is at most 0 and the uniform oracle never draws below
0 (as rand() cannot), every trial is ground-truth negative, so tp and fn
stay 0 through the whole loop. -/
theorem runLoop_noPos (u : ℕ → ℚ) (r : ℚ → ℚ → ℕ → ℕ → List ℚ)
    (cfg : Config) (hp : cfg.p_positive ≤ 0) (hu : ∀ sd, 0 ≤ u sd) (n : ℕ) :
    (runLoop u r cfg n).true_positives = 0
    ∧ (runLoop u r cfg n).false_negatives = 0 := by
  induction n with
  | zero => exact ⟨rfl, rfl⟩
  | succ n ih =>
      have hneg : trialPositive u cfg n = false := by
        simp only [trialPositive, decide_eq_false_iff_not]
        exact not_lt.mpr (le_trans hp (hu _))
      rw [runLoop_succ, runTrial, hneg]
      rw [(tallyStep_neg_keeps _ _ _).1, (tallyStep_neg_keeps _ _ _).2]
      exact ih

/-- A run with the zero uniform oracle and the all-zero sample oracle, on
any configuration with positive p_positive, nsamples at least 2 and a
positive significance level, completes normally with every trial a true
positive, precision 1 and recall 1. -/
theorem calc_constZero (cfg : Config) (hp : 0 < cfg.p_positive)
    (h2 : 2 ≤ cfg.nsamples) (hs : 0 < cfg.signif_level) :
    calc_precision_recall uZero rConstZero cfg
      = Except.ok ⟨⟨n_iters, 0, 0, 0⟩, 1, 1⟩ := by
  have h := runLoop_constZero cfg hp h2 hs n_iters
  simp only [calc_precision_recall, h]
  norm_num [n_iters]

/-- C4 (counterexample): with a valid configuration whose
positive_probability is 0, every trial is ground-truth negative, tp + fn
is 0 after all trials, and the recall expression raises an unhandled
ZeroDivisionError: the run crashes instead of reporting an explicit
"undefined" result. -/
theorem C4_counterexample :
    ValidConfig cfgNoPos
    ∧ calc_precision_recall uHalf rConstZero cfgNoPos
        = Except.error PyError.zeroDivisionError := by
  constructor
  · exact ⟨by norm_num [cfgNoPos], by norm_num [cfgNoPos],
      by norm_num [cfgNoPos], by norm_num [cfgNoPos], by norm_num [cfgNoPos]⟩
  · have h := runLoop_noPos uHalf rConstZero cfgNoPos
      (by norm_num [cfgNoPos]) (fun sd => by norm_num [uHalf]) n_iters
    simp only [calc_precision_recall]
    by_cases hfp : (runLoop uHalf rConstZero cfgNoPos n_iters).false_positives = 0
    · rw [if_pos (by omega)]
    · rw [if_neg (by omega), if_pos (by omega)]

/-- C4 (amended): when the precision denominator tp + fp (or the recall
denominator tp + fn) is zero after all trials, the evaluator raises an
unhandled ZeroDivisionError (its only failure mode) instead of reporting
an explicit undefined value. -/
theorem C4_amended (u : ℕ → ℚ) (r : ℚ → ℚ → ℕ → ℕ → List ℚ) (cfg : Config)
    (h : (runLoop u r cfg n_iters).true_positives
            + (runLoop u r cfg n_iters).false_positives = 0
       ∨ (runLoop u r cfg n_iters).true_positives
            + (runLoop u r cfg n_iters).false_negatives = 0) :
    calc_precision_recall u r cfg = Except.error PyError.zeroDivisionError := by
  simp only [calc_precision_recall]
  rcases h with h | h
  · rw [if_pos h]
  · by_cases h1 : (runLoop u r cfg n_iters).true_positives
        + (runLoop u r cfg n_iters).false_positives = 0
    · rw [if_pos h1]
    · rw [if_neg h1, if_pos h]

/-- C4 (witness): the amended statement applied to the concrete
zero-positive-probability run. -/
theorem C4_witness :
    ((runLoop uHalf rConstZero cfgNoPos n_iters).true_positives
        + (runLoop uHalf rConstZero cfgNoPos n_iters).false_negatives = 0)
    ∧ calc_precision_recall uHalf rConstZero cfgNoPos
        = Except.error PyError.zeroDivisionError := by
  have h := runLoop_noPos uHalf rConstZero cfgNoPos
    (by norm_num [cfgNoPos]) (fun sd => by norm_num [uHalf]) n_iters
  have hz : (runLoop uHalf rConstZero cfgNoPos n_iters).true_positives
      + (runLoop uHalf rConstZero cfgNoPos n_iters).false_negatives = 0 := by
    rw [h.1, h.2]
  exact ⟨hz, C4_amended uHalf rConstZero cfgNoPos (Or.inr hz)⟩

/-- C5 (counterexample): the evaluator performs no configuration
validation.  The configuration with significance level 2 (outside (0,1))
is invalid, yet the run does not fail with any InvalidConfiguration error
before the trials: all 10000 trials execute and the run completes
normally. -/
theorem C5_counterexample :
    ¬ ValidConfig cfgBigAlpha
    ∧ calc_precision_recall uZero rConstZero cfgBigAlpha
        = Except.ok ⟨⟨n_iters, 0, 0, 0⟩, 1, 1⟩ := by
  constructor
  · intro h
    exact absurd h.2.2.1 (by norm_num [cfgBigAlpha])
  · exact calc_constZero cfgBigAlpha (by norm_num [cfgBigAlpha])
      (by norm_num [cfgBigAlpha]) (by norm_num [cfgBigAlpha])

/-- C5 (amended): no InvalidConfiguration failure path exists in the
evaluator: for every configuration, valid or not, the run executes and
either completes normally or raises ZeroDivisionError in the final metric
computation - the only error the evaluator can produce. -/
theorem C5_amended (u : ℕ → ℚ) (r : ℚ → ℚ → ℕ → ℕ → List ℚ)
    (cfg : Config) :
    calc_precision_recall u r cfg = Except.error PyError.zeroDivisionError
      ∨ ∃ res : RunResult, calc_precision_recall u r cfg = Except.ok res := by
  simp only [calc_precision_recall]
  split_ifs
  · exact Or.inl rfl
  · exact Or.inl rfl
  · exact Or.inr ⟨_, rfl⟩

/-- C6 (counterexample): a trial whose sample has zero standard error is
not failed.  The all-zero sample (variance 0, mean below the reference
mean) has its t-statistic silently coerced to minus infinity and its
p-value to 0, and the whole default-configuration run completes normally
with every such degenerate trial silently tallied as a detection. -/
theorem C6_counterexample :
    var_pop (List.replicate 100 (0 : ℚ)) = 0
    ∧ tstat_ssq (List.replicate 100 (0 : ℚ)) reference_mean = PFloat.ninf
    ∧ t_cdf (tstat_ssq (List.replicate 100 (0 : ℚ)) reference_mean) 99
        = PFloat.fin 0
    ∧ ValidConfig defaultConfig
    ∧ calc_precision_recall uZero rConstZero defaultConfig
        = Except.ok ⟨⟨n_iters, 0, 0, 0⟩, 1, 1⟩ := by
  have h2 : tstat_ssq (List.replicate 100 (0 : ℚ)) reference_mean
      = PFloat.ninf := by
    rw [tstat_ssq_replicate _ _ _ (by norm_num)]
    norm_num [reference_mean]
  refine ⟨var_pop_replicate 100 0 (by norm_num), h2, ?_, ?_, ?_⟩
  · rw [h2]
    rfl
  · exact ⟨by norm_num [defaultConfig], by norm_num [defaultConfig],
      by norm_num [defaultConfig], by norm_num [defaultConfig],
      by norm_num [defaultConfig]⟩
  · exact calc_constZero defaultConfig (by norm_num [defaultConfig])
      (by norm_num [defaultConfig]) (by norm_num [defaultConfig])

/-- C6 (amended): a trial with zero standard error is never failed
explicitly: its t-statistic is silently coerced to plus infinity (sample
mean above the reference), minus infinity (below), or NaN (equal), and
the p-value fed to the comparisons is then 1, 0, or NaN respectively, so
the trial is silently tallied (or, in the NaN case, silently skipped)
with no error signalled. -/
theorem C6_amended (x : List ℚ) (ref : ℚ) (df : ℕ) (hlen : x.length ≠ 0)
    (hvar : var_pop x = 0) (hdf : df ≠ 0) :
    (tstat_ssq x ref = PFloat.pinf ∨ tstat_ssq x ref = PFloat.ninf
        ∨ tstat_ssq x ref = PFloat.nan)
    ∧ (0 < mean x - ref → t_cdf (tstat_ssq x ref) df = PFloat.fin 1)
    ∧ (mean x - ref < 0 → t_cdf (tstat_ssq x ref) df = PFloat.fin 0)
    ∧ (mean x = ref → t_cdf (tstat_ssq x ref) df = PFloat.nan) := by
  have he : tstat_ssq x ref
      = (if 0 < mean x - ref then PFloat.pinf
         else if mean x - ref < 0 then PFloat.ninf
         else PFloat.nan) := by
    rw [tstat_ssq, if_neg hlen, if_pos hvar]
  refine ⟨?_, ?_, ?_, ?_⟩
  · rw [he]
    split_ifs <;> simp
  · intro h
    rw [he, if_pos h, t_cdf, if_neg hdf]
  · intro h
    rw [he, if_neg (by linarith), if_pos h, t_cdf, if_neg hdf]
  · intro h
    have h0 : mean x - ref = 0 := by rw [h, sub_self]
    rw [he, if_neg (by rw [h0]; exact lt_irrefl 0),
      if_neg (by rw [h0]; exact lt_irrefl 0), t_cdf_nan]

/-- C6 (witness): the amended statement evaluated on the constant sample
of two fives against reference 3 with one degree of freedom. -/
theorem C6_witness :
    ((List.replicate 2 (5 : ℚ)).length ≠ 0
      ∧ var_pop (List.replicate 2 (5 : ℚ)) = 0 ∧ (1 : ℕ) ≠ 0)
    ∧ ((tstat_ssq (List.replicate 2 (5 : ℚ)) 3 = PFloat.pinf
        ∨ tstat_ssq (List.replicate 2 (5 : ℚ)) 3 = PFloat.ninf
        ∨ tstat_ssq (List.replicate 2 (5 : ℚ)) 3 = PFloat.nan)
      ∧ (0 < mean (List.replicate 2 (5 : ℚ)) - 3 →
          t_cdf (tstat_ssq (List.replicate 2 (5 : ℚ)) 3) 1 = PFloat.fin 1)
      ∧ (mean (List.replicate 2 (5 : ℚ)) - 3 < 0 →
          t_cdf (tstat_ssq (List.replicate 2 (5 : ℚ)) 3) 1 = PFloat.fin 0)
      ∧ (mean (List.replicate 2 (5 : ℚ)) = 3 →
          t_cdf (tstat_ssq (List.replicate 2 (5 : ℚ)) 3) 1 = PFloat.nan)) :=
  ⟨⟨by decide, var_pop_replicate 2 5 (by norm_num), by decide⟩,
    C6_amended (List.replicate 2 (5 : ℚ)) 3 1 (by decide)
      (var_pop_replicate 2 5 (by norm_num)) (by decide)⟩

/-- C7 (confirmed): the tallies are a pure function of the per-seed draws
at the seeds 313 + iteration for the 10000 iterations: two runs with the
same configuration whose random oracles agree on that seed window produce
identical results, so nothing outside the configuration and the seeded
draws can influence the outcome. -/
theorem C7_determinism (u1 u2 : ℕ → ℚ) (r1 r2 : ℚ → ℚ → ℕ → ℕ → List ℚ)
    (cfg : Config)
    (hu : ∀ sd, 313 ≤ sd → sd < 313 + n_iters → u1 sd = u2 sd)
    (hr : ∀ loc v k sd, 313 ≤ sd → sd < 313 + n_iters →
        r1 loc v k sd = r2 loc v k sd) :
    calc_precision_recall u1 r1 cfg = calc_precision_recall u2 r2 cfg := by
  have h := runLoop_congr u1 u2 r1 r2 cfg n_iters hu hr
  rw [calc_precision_recall, calc_precision_recall, h]

/-- C7 (witness): the determinism theorem applied to two syntactically
different uniform oracles that agree on the seed window. -/
theorem C7_witness :
    ((∀ sd, 313 ≤ sd → sd < 313 + n_iters → uZero sd = uSeedMasked sd)
      ∧ (∀ loc v k sd, 313 ≤ sd → sd < 313 + n_iters →
          rConstZero loc v k sd = rConstZero loc v k sd))
    ∧ calc_precision_recall uZero rConstZero defaultConfig
        = calc_precision_recall uSeedMasked rConstZero defaultConfig := by
  have hu : ∀ sd, 313 ≤ sd → sd < 313 + n_iters → uZero sd = uSeedMasked sd := by
    intro sd h1 h2
    rw [uZero, uSeedMasked]
    rw [if_neg (Nat.not_lt.mpr h1)]
  exact ⟨⟨hu, fun _ _ _ _ _ _ => rfl⟩,
    C7_determinism uZero uSeedMasked rConstZero rConstZero defaultConfig hu
      (fun _ _ _ _ _ _ => rfl)⟩

/-- C8 (confirmed): between two runs that share the uniform and sample
oracles, the sample size and the positive probability and differ only in
the significance level, the run with the larger level decides at least as
many trials as detections (tp + fp), the positive-truth count tp + fn is
identical, and recall (when its shared denominator is nonzero) is
non-decreasing in the significance level. -/
theorem C8_monotonicity (u : ℕ → ℚ) (r : ℚ → ℚ → ℕ → ℕ → List ℚ)
    (ns : ℕ) (p s1 s2 : ℚ) (n : ℕ) (h : s1 ≤ s2) :
    (runLoop u r ⟨ns, s1, p⟩ n).true_positives
          + (runLoop u r ⟨ns, s1, p⟩ n).false_positives
        ≤ (runLoop u r ⟨ns, s2, p⟩ n).true_positives
          + (runLoop u r ⟨ns, s2, p⟩ n).false_positives
    ∧ (runLoop u r ⟨ns, s1, p⟩ n).true_positives
          + (runLoop u r ⟨ns, s1, p⟩ n).false_negatives
        = (runLoop u r ⟨ns, s2, p⟩ n).true_positives
          + (runLoop u r ⟨ns, s2, p⟩ n).false_negatives
    ∧ (0 < (runLoop u r ⟨ns, s1, p⟩ n).true_positives
          + (runLoop u r ⟨ns, s1, p⟩ n).false_negatives →
        ((runLoop u r ⟨ns, s1, p⟩ n).true_positives : ℚ)
            / (((runLoop u r ⟨ns, s1, p⟩ n).true_positives
                 + (runLoop u r ⟨ns, s1, p⟩ n).false_negatives : ℕ) : ℚ)
          ≤ ((runLoop u r ⟨ns, s2, p⟩ n).true_positives : ℚ)
            / (((runLoop u r ⟨ns, s2, p⟩ n).true_positives
                 + (runLoop u r ⟨ns, s2, p⟩ n).false_negatives : ℕ) : ℚ)) := by
  obtain ⟨h1, h2, h3⟩ := runLoop_pair u r ns p s1 s2 h n
  refine ⟨h2, h3, ?_⟩
  intro hpos0
  rw [← h3]
  have hD : (0 : ℚ)
      < (((runLoop u r ⟨ns, s1, p⟩ n).true_positives
           + (runLoop u r ⟨ns, s1, p⟩ n).false_negatives : ℕ) : ℚ) := by
    exact_mod_cast hpos0
  exact (div_le_div_iff_of_pos_right hD).mpr (by exact_mod_cast h1)

/-- C8 (witness): the monotonicity theorem applied to the thresholds
1/100 and 1/10 over a concrete 7-trial run. -/
theorem C8_witness :
    ((1 : ℚ) / 100 ≤ 1 / 10)
    ∧ ((runLoop uZero rConstZero ⟨100, 1 / 100, 1 / 2⟩ 7).true_positives
          + (runLoop uZero rConstZero ⟨100, 1 / 100, 1 / 2⟩ 7).false_positives
        ≤ (runLoop uZero rConstZero ⟨100, 1 / 10, 1 / 2⟩ 7).true_positives
          + (runLoop uZero rConstZero ⟨100, 1 / 10, 1 / 2⟩ 7).false_positives
      ∧ (runLoop uZero rConstZero ⟨100, 1 / 100, 1 / 2⟩ 7).true_positives
          + (runLoop uZero rConstZero ⟨100, 1 / 100, 1 / 2⟩ 7).false_negatives
        = (runLoop uZero rConstZero ⟨100, 1 / 10, 1 / 2⟩ 7).true_positives
          + (runLoop uZero rConstZero ⟨100, 1 / 10, 1 / 2⟩ 7).false_negatives
      ∧ (0 < (runLoop uZero rConstZero ⟨100, 1 / 100, 1 / 2⟩ 7).true_positives
          + (runLoop uZero rConstZero ⟨100, 1 / 100, 1 / 2⟩ 7).false_negatives →
          ((runLoop uZero rConstZero ⟨100, 1 / 100, 1 / 2⟩ 7).true_positives : ℚ)
              / (((runLoop uZero rConstZero ⟨100, 1 / 100, 1 / 2⟩ 7).true_positives
                   + (runLoop uZero rConstZero ⟨100, 1 / 100, 1 / 2⟩ 7).false_negatives : ℕ) : ℚ)
            ≤ ((runLoop uZero rConstZero ⟨100, 1 / 10, 1 / 2⟩ 7).true_positives : ℚ)
              / (((runLoop uZero rConstZero ⟨100, 1 / 10, 1 / 2⟩ 7).true_positives
                   + (runLoop uZero rConstZero ⟨100, 1 / 10, 1 / 2⟩ 7).false_negatives : ℕ) : ℚ))) :=
  ⟨by norm_num,
    C8_monotonicity uZero rConstZero 100 (1 / 2) (1 / 100) (1 / 10) 7 (by norm_num)⟩

/-- C9 (confirmed): the ground truth of trial i is decided by comparing
the uniform draw at seed 313 + i (a value in [0,1)) strictly against
positive_probability: when the draw is below it the trial is ground-truth
positive and its sample is requested from the normal generator with
location the treatment mean, otherwise it is ground-truth negative with
location the reference mean - with the same shared variance and the same
sample size and seed in both branches. -/
theorem C9_trial_generation (u : ℕ → ℚ) (r : ℚ → ℚ → ℕ → ℕ → List ℚ)
    (cfg : Config) (i : ℕ) (h0 : 0 ≤ u (313 + i)) (h1 : u (313 + i) < 1) :
    (trialPositive u cfg i = true ↔ u (313 + i) < cfg.p_positive)
    ∧ (trialPositive u cfg i = true →
        trialSample u r cfg i = r true_mean true_variance cfg.nsamples (313 + i))
    ∧ (trialPositive u cfg i = false →
        trialSample u r cfg i
          = r reference_mean true_variance cfg.nsamples (313 + i)) := by
  refine ⟨?_, ?_, ?_⟩
  · simp [trialPositive]
  · intro h
    rw [trialSample, h]
    rfl
  · intro h
    rw [trialSample, h]
    rfl

/-- C9 (witness): the trial-generation theorem evaluated at the constant
1/2 uniform oracle (a draw inside [0,1)) under the default
configuration. -/
theorem C9_witness :
    ((0 : ℚ) ≤ uHalf (313 + 0) ∧ uHalf (313 + 0) < 1)
    ∧ ((trialPositive uHalf defaultConfig 0 = true
          ↔ uHalf (313 + 0) < defaultConfig.p_positive)
      ∧ (trialPositive uHalf defaultConfig 0 = true →
          trialSample uHalf rConstZero defaultConfig 0
            = rConstZero true_mean true_variance defaultConfig.nsamples (313 + 0))
      ∧ (trialPositive uHalf defaultConfig 0 = false →
          trialSample uHalf rConstZero defaultConfig 0
            = rConstZero reference_mean true_variance defaultConfig.nsamples
                (313 + 0))) :=
  ⟨⟨by norm_num [uHalf], by norm_num [uHalf]⟩,
    C9_trial_generation uHalf rConstZero defaultConfig 0
      (by norm_num [uHalf]) (by norm_num [uHalf])⟩

/-- C10 (confirmed): a trial whose p-value is NaN increments none of the
four counters and raises no error.  In the concrete mixed run (all trials
ground-truth positive), trial 0 draws the reference-mean constant sample
and gets p-value NaN, trial 1 is tallied a true positive, every later
trial a false negative: the run completes normally with
tp + fp + tn + fn = 9999, strictly less than the 10000 iterations. -/
theorem C10_nan_skips_counters :
    (runLoop uHalf rMix cfgAllPos n_iters).total = n_iters - 1
    ∧ (runLoop uHalf rMix cfgAllPos n_iters).total < n_iters
    ∧ calc_precision_recall uHalf rMix cfgAllPos
        = Except.ok ⟨⟨1, 0, 0, n_iters - 2⟩, 1, 1 / 9999⟩ := by
  have h := runLoop_rMix n_iters (by norm_num [n_iters])
  refine ⟨?_, ?_, ?_⟩
  · rw [h]
    norm_num [Tally.total, n_iters]
  · rw [h]
    norm_num [Tally.total, n_iters]
  · simp only [calc_precision_recall, h]
    norm_num [n_iters]

end StatsLessons
